import Mathlib

/-!
Shallow embedding of the OpenBook file-system abstraction
(`src/openbook/src/error.rs`, `src/openbook/src/fs/mod.rs`,
`src/openbook/src/fs/local.rs`) and proofs of the specified properties.

Modelling conventions:
* `PathBuf` is a `String`.
* Type-erased `Box<dyn std::error::Error>` values are modelled by
  `BoxedDynError`, which records the erased error's displayed description.
* The host operating system is modelled by an `OsState` function mapping each
  path to what a metadata query observes there (a regular file with its
  content, a directory with its entry listing, absence, or permission denial).
* The background watcher thread, which blocks on an mpsc channel until the
  channel closes, is modelled as a function consuming the finite list of raw
  events the channel carries before closure; reaching the end of the list is
  the failing `recv` (channel closed).
* The consumer's `Box<dyn FileSystemEventSink>` is modelled as a state type
  `σ` together with a `send` function returning the updated state and the
  `Result` of the delivery.
-/

namespace OpenBook

/-- Paths (`std::path::PathBuf`) are modelled as plain strings. -/
abbrev PathBuf := String

/-- A type-erased boxed error value (`Box<dyn std::error::Error>`), modelled
by the description its `Display` implementation renders. -/
structure BoxedDynError where
  description : String
deriving DecidableEq, Repr

/-- Model of the Rust `std::error::Error` trait: an implementation supplies
`Display` output, and the provided method `source` has a default body that
returns `None` (an empty `impl` block inherits exactly this default). -/
structure StdErrorInstance (α : Type) where
  display : α → String
  source : α → Option BoxedDynError := fun _ => none

/-- Types usable as Rust error values (`E: std::error::Error`), erasable into
a `Box<dyn std::error::Error>`. -/
class ErrorLike (E : Type) where
  toBoxed : E → BoxedDynError

/-- `Error` from `src/openbook/src/error.rs`: either a wrapped dependency
failure (`Inner`) or a locally raised message (`Msg`). -/
inductive Error where
  | Inner (inner : BoxedDynError)
  | Msg (msg : String)
deriving DecidableEq, Repr

/-- `Error::from_inner`: box the underlying error into the `Inner` variant. -/
def Error.from_inner {E : Type} [ErrorLike E] (inner : E) : Error :=
  Error.Inner (ErrorLike.toBoxed inner)

/-- `Error::from_message`: wrap a message string into the `Msg` variant. -/
def Error.from_message (msg : String) : Error :=
  Error.Msg msg

/-- The `Display` implementation for `Error` (error.rs, lines 35-42). -/
def Error.display : Error → String
  | Error.Inner inner => "OpenBook inner error: " ++ inner.description
  | Error.Msg msg => "OpenBook error: " ++ msg

/-- `impl std::error::Error for Error {}` (error.rs, line 44): the impl block
is empty, so `source` keeps its default body. -/
def Error.stdErrorInstance : StdErrorInstance Error :=
  { display := Error.display }

/-- `FileSystemWatchMode` from `src/openbook/src/fs/mod.rs`. -/
inductive FileSystemWatchMode where
  | Normal
  | Recursive
deriving DecidableEq, Repr

/-- `FileSystemEvent` from `src/openbook/src/fs/mod.rs`: the normalized event
vocabulary emitted by a file system watcher. -/
inductive FileSystemEvent where
  | Create (path : PathBuf)
  | Delete (path : PathBuf)
  | Rename (from_ to_ : PathBuf)
  | Write (path : PathBuf)
  | Error (error : OpenBook.Error) (path : Option PathBuf)
deriving DecidableEq, Repr

/-- An error reported by the `notify` backend (`notify::Error`), modelled by
its displayed description. -/
structure NotifyError where
  description : String
deriving DecidableEq, Repr

instance : ErrorLike NotifyError :=
  ⟨fun e => ⟨e.description⟩⟩

/-- `notify::DebouncedEvent` (notify 4.x): the raw backend event vocabulary
received over the watcher's internal channel. -/
inductive DebouncedEvent where
  | NoticeWrite (path : PathBuf)
  | NoticeRemove (path : PathBuf)
  | Create (path : PathBuf)
  | Write (path : PathBuf)
  | Chmod (path : PathBuf)
  | Remove (path : PathBuf)
  | Rename (from_ to_ : PathBuf)
  | Rescan
  | Error (error : NotifyError) (path : Option PathBuf)
deriving DecidableEq, Repr

/-- `filter_raw_fs_event` from `src/openbook/src/fs/local.rs`, lines 80-89.
The source declares the parameter as `raw_event` but the `match` scrutinee is
written `event`, an undefined name, so the function as written does not
compile; the match arms below are the source's arms applied to the declared
parameter, which is the evident intent. -/
def filter_raw_fs_event (raw_event : DebouncedEvent) : Option FileSystemEvent :=
  match raw_event with
  | DebouncedEvent.Create path => some (FileSystemEvent.Create path)
  | DebouncedEvent.Remove path => some (FileSystemEvent.Delete path)
  | DebouncedEvent.Rename from_ to_ => some (FileSystemEvent.Rename from_ to_)
  | DebouncedEvent.Write path => some (FileSystemEvent.Write path)
  | DebouncedEvent.Error e path => some (FileSystemEvent.Error (Error.from_inner e) path)
  | _ => none

/-- A consumer-supplied `Box<dyn FileSystemEventSink>`: a stateful `send`
operation over a sink-state type `σ`, returning the updated state and the
`Result` of the delivery (fs/mod.rs, lines 97-100). -/
structure EventSink (σ : Type) where
  send : σ → FileSystemEvent → σ × Except Error Unit

/-- The background thread's loop in `LocalFileSystemWatcher::new`
(local.rs, lines 102-114), with the channel's content up to closure given as
a list: an empty list is a failing `recv` (the channel closed) and the loop
returns; otherwise one raw event is received, normalized by
`filter_raw_fs_event`, and, when normalization yields an event, passed to
`event_sink.send`, whose `Result` is discarded by `.ok()` — only the sink's
state advances, the success flag is dropped. -/
def watcherLoop {σ : Type} (event_sink : EventSink σ) :
    List DebouncedEvent → σ → σ
  | [], s => s
  | raw :: rest, s =>
    let user_event := filter_raw_fs_event raw
    match user_event with
    | some e => watcherLoop event_sink rest (event_sink.send s e).1
    | none => watcherLoop event_sink rest s

/-- One observable step of the background thread. -/
inductive LoopStep where
  | received (raw : DebouncedEvent)
  | delivered (e : FileSystemEvent)
  | terminated
deriving DecidableEq, Repr

/-- The sequence of observable steps the background loop performs on a
channel that carries the given raw events and then closes: each raw event is
received and, when normalization keeps it, delivered to the sink; the failing
`recv` at channel closure is the single `terminated` step, after which the
thread has returned. -/
def watcherLoopTrace : List DebouncedEvent → List LoopStep
  | [] => [LoopStep.terminated]
  | raw :: rest =>
    match filter_raw_fs_event raw with
    | some e => LoopStep.received raw :: LoopStep.delivered e :: watcherLoopTrace rest
    | none => LoopStep.received raw :: watcherLoopTrace rest

/-- A sink over state `List FileSystemEvent` that records every event passed
to `send`, answering each call with the verdict of an arbitrary failure
pattern `res`; used to observe which events the loop hands to the sink. -/
def recordingSink (res : List FileSystemEvent → FileSystemEvent → Except Error Unit) :
    EventSink (List FileSystemEvent) :=
  ⟨fun s e => (s ++ [e], res s e)⟩

/-- An I/O error (`std::io::Error`), modelled by its displayed description. -/
structure IoError where
  description : String
deriving DecidableEq, Repr

instance : ErrorLike IoError :=
  ⟨fun e => ⟨e.description⟩⟩

/-- A directory entry (`std::fs::DirEntry`), carrying the entry's path. -/
structure DirEntry where
  path : PathBuf
deriving DecidableEq, Repr

/-- Content stored in a regular file: either text decodable as UTF-8, or
bytes that are not valid UTF-8. -/
inductive FileData where
  | text (s : String)
  | binary
deriving DecidableEq, Repr

/-- What an OS metadata query observes at one path. -/
inductive OsLookup where
  | file (data : FileData)
  | dir (entries : List (Except IoError DirEntry))
  | notFound
  | permissionDenied
deriving Repr

/-- The modelled host operating system: what each path resolves to. -/
abbrev OsState := PathBuf → OsLookup

/-- `std::path::Path::is_file`: `true` exactly when the metadata query
succeeds and reports a regular file; any error (absence, permission denial)
reads as `false`. -/
def Path.is_file (os : OsState) (p : PathBuf) : Bool :=
  match os p with
  | OsLookup.file _ => true
  | _ => false

/-- `std::path::Path::is_dir`: `true` exactly when the metadata query
succeeds and reports a directory; any error reads as `false`. -/
def Path.is_dir (os : OsState) (p : PathBuf) : Bool :=
  match os p with
  | OsLookup.dir _ => true
  | _ => false

/-- `LocalFileSystem::has_file` (local.rs, lines 33-35). -/
def LocalFileSystem.has_file (os : OsState) (path : PathBuf) : Bool :=
  Path.is_file os path

/-- `LocalFileSystem::has_dir` (local.rs, lines 37-39). -/
def LocalFileSystem.has_dir (os : OsState) (path : PathBuf) : Bool :=
  Path.is_dir os path

/-- `std::fs::read_to_string`: the file's content when the path names a
regular file whose bytes decode as UTF-8; an I/O error when the path is
absent, inaccessible, not a regular file, or not valid UTF-8. -/
def read_to_string (os : OsState) (p : PathBuf) : Except IoError String :=
  match os p with
  | OsLookup.file (FileData.text s) => Except.ok s
  | OsLookup.file FileData.binary =>
    Except.error ⟨"stream did not contain valid UTF-8"⟩
  | OsLookup.dir _ => Except.error ⟨"Is a directory"⟩
  | OsLookup.notFound => Except.error ⟨"No such file or directory"⟩
  | OsLookup.permissionDenied => Except.error ⟨"Permission denied"⟩

/-- `LocalFileSystem::read_file_as_string` (local.rs, lines 41-43):
`std::fs::read_to_string(path).map_err(Error::from_inner)`. -/
def LocalFileSystem.read_file_as_string (os : OsState) (path : PathBuf) :
    Except Error String :=
  (read_to_string os path).mapError Error.from_inner

/-- `std::fs::ReadDir`: the remaining per-entry results of a directory read. -/
structure ReadDir where
  entries : List (Except IoError DirEntry)
deriving Repr

/-- `std::fs::read_dir`: the directory's per-entry result sequence when the
path names a directory, an I/O error otherwise. -/
def read_dir (os : OsState) (p : PathBuf) : Except IoError ReadDir :=
  match os p with
  | OsLookup.dir entries => Except.ok ⟨entries⟩
  | OsLookup.file _ => Except.error ⟨"Not a directory"⟩
  | OsLookup.notFound => Except.error ⟨"No such file or directory"⟩
  | OsLookup.permissionDenied => Except.error ⟨"Permission denied"⟩

/-- `LocalFileSystemIter` (local.rs, lines 55-57): wraps a `ReadDir`. -/
structure LocalFileSystemIter where
  inner : ReadDir

/-- `ReadDir`'s `Iterator::next`: pull the next per-entry result, or `none`
when the sequence is exhausted. -/
def ReadDir.next (rd : ReadDir) : Option (Except IoError DirEntry) × ReadDir :=
  match rd.entries with
  | [] => (none, rd)
  | r :: rest => (some r, ⟨rest⟩)

/-- `LocalFileSystemIter::new` (local.rs, lines 62-66):
`std::fs::read_dir(dir).map_err(Error::from_inner)?`, then wrap. -/
def LocalFileSystemIter.new (os : OsState) (dir : PathBuf) :
    Except Error LocalFileSystemIter :=
  ((read_dir os dir).mapError Error.from_inner).map fun inner => ⟨inner⟩

/-- `LocalFileSystem::read_directory` (local.rs, lines 45-47). -/
def LocalFileSystem.read_directory (os : OsState) (path : PathBuf) :
    Except Error LocalFileSystemIter :=
  LocalFileSystemIter.new os path

/-- `Iterator::next` for `LocalFileSystemIter` (local.rs, lines 72-76):
`self.inner.next().map(|r| r.map(|e| e.path()).map_err(Error::from_inner))`,
with the advanced `ReadDir` threaded explicitly. -/
def LocalFileSystemIter.next (it : LocalFileSystemIter) :
    Option (Except Error PathBuf) × LocalFileSystemIter :=
  let step := it.inner.next
  (step.1.map fun r => (r.map DirEntry.path).mapError Error.from_inner, ⟨step.2⟩)

/-- The results of `n` successive `next` calls on the iterator. -/
def LocalFileSystemIter.pulls : Nat → LocalFileSystemIter → List (Option (Except Error PathBuf))
  | 0, _ => []
  | Nat.succ n, it =>
    let step := it.next
    step.1 :: LocalFileSystemIter.pulls n step.2

/-- An `std::sync::mpsc` channel of `FileSystemEvent`s seen from a `Sender`:
whether the receiving end is still connected, and the queue of events
enqueued so far. -/
structure MpscChannel where
  connected : Bool
  queue : List FileSystemEvent
deriving DecidableEq, Repr

/-- `std::sync::mpsc::SendError<FileSystemEvent>`: returned by `send` when
the receiver has been dropped, carrying back the unsent event. -/
structure SendError where
  event : FileSystemEvent
deriving DecidableEq, Repr

instance : ErrorLike SendError :=
  ⟨fun _ => ⟨"sending on a closed channel"⟩⟩

/-- `Sender::<FileSystemEvent>::send`: enqueue the event and succeed while
the receiver is connected; fail with `SendError(event)` once the receiver
has been dropped, leaving the queue unchanged. -/
def Sender.send (ch : MpscChannel) (event : FileSystemEvent) :
    MpscChannel × Except SendError Unit :=
  if ch.connected then (⟨ch.connected, ch.queue ++ [event]⟩, Except.ok ())
  else (ch, Except.error ⟨event⟩)

/-- `impl FileSystemEventSink for Sender<FileSystemEvent>`
(fs/mod.rs, lines 102-106): `self.send(event).map_err(Error::from_inner)`. -/
def senderEventSink : EventSink MpscChannel :=
  ⟨fun ch event =>
    let step := Sender.send ch event
    (step.1, step.2.mapError Error.from_inner)⟩

/-- `notify::RecursiveMode`. -/
inductive RecursiveMode where
  | NonRecursive
  | Recursive
deriving DecidableEq, Repr

/-- The backend `notify::RecommendedWatcher` handle: the set of (path, mode)
registrations made so far. -/
structure RecommendedWatcher where
  watches : List (PathBuf × RecursiveMode)
deriving DecidableEq, Repr

/-- `LocalFileSystemWatcher` (local.rs, lines 92-94): owns the backend
watcher handle (the `Mutex` is erased in this sequential model). -/
structure LocalFileSystemWatcher where
  raw_watcher : RecommendedWatcher
deriving DecidableEq, Repr

/-- `LocalFileSystemWatcher::new` (local.rs, lines 99-120). The channel is
created and the background thread spawned first (the thread is modelled
separately by `watcherLoop`/`watcherLoopTrace` over the events the channel
carries); then `notify::watcher(raw_events_send, Duration::new(0, 0))` is
initialized, whose outcome is the `initOutcome` parameter: on failure the
`?` operator returns the error wrapped by `Error::from_inner` and the
channel's only producer (`raw_events_send`, moved into the failed call) is
dropped; on success the handle is stored and the watcher returned. -/
def LocalFileSystemWatcher.new
    (initOutcome : Except NotifyError RecommendedWatcher) :
    Except Error LocalFileSystemWatcher :=
  match initOutcome with
  | Except.error e => Except.error (Error.from_inner e)
  | Except.ok raw_watcher => Except.ok ⟨raw_watcher⟩

/-- `LocalFileSystem::create_watcher` (local.rs, lines 49-51). -/
def LocalFileSystem.create_watcher
    (initOutcome : Except NotifyError RecommendedWatcher) :
    Except Error LocalFileSystemWatcher :=
  LocalFileSystemWatcher.new initOutcome

/-- `FileSystemWatcher::watch` for `LocalFileSystemWatcher`
(local.rs, lines 124-133): translate the mode and register the path on the
backend handle; `registerOutcome` is the backend's verdict for this
registration. -/
def LocalFileSystemWatcher.watch (w : LocalFileSystemWatcher) (path : PathBuf)
    (mode : FileSystemWatchMode) (registerOutcome : Except NotifyError Unit) :
    LocalFileSystemWatcher × Except Error Unit :=
  let notify_mode :=
    match mode with
    | FileSystemWatchMode.Normal => RecursiveMode.NonRecursive
    | FileSystemWatchMode.Recursive => RecursiveMode.Recursive
  match registerOutcome with
  | Except.ok () => (⟨⟨w.raw_watcher.watches ++ [(path, notify_mode)]⟩⟩, Except.ok ())
  | Except.error e => (w, Except.error (Error.from_inner e))

/-- A concrete OS state used by the witnesses: a readable text file, a
binary file, a listable directory with one unreadable entry, a
permission-denied path; everything else absent. -/
def demoOs : OsState := fun p =>
  if p = "/book/a.md" then OsLookup.file (FileData.text "hello")
  else if p = "/book/bin" then OsLookup.file FileData.binary
  else if p = "/book" then
    OsLookup.dir
      [Except.ok ⟨"/book/a.md"⟩, Except.error ⟨"Permission denied"⟩,
       Except.ok ⟨"/book/bin"⟩]
  else if p = "/secret" then OsLookup.permissionDenied
  else OsLookup.notFound

/-- The receive/deliver steps the background loop performs for the given raw
events: one `received` per raw event, followed by one `delivered` exactly
when the normalization filter keeps the event. -/
def loopBodySteps (raws : List DebouncedEvent) : List LoopStep :=
  raws.flatMap fun raw =>
    LoopStep.received raw :: (filter_raw_fs_event raw).toList.map LoopStep.delivered

/-- C1: the normalization filter maps a creation to `Create`, a removal to
`Delete`, a rename to `Rename`, a write to `Write`, a backend error to
`Error` with the failure wrapped by `from_inner`, and drops every other raw
event kind; it is total (this theorem is about the modelled function with
the source's parameter-name slip fixed — see `filter_raw_fs_event`). -/
theorem filter_raw_fs_event_total_mapping :
    (∀ p, filter_raw_fs_event (DebouncedEvent.Create p) = some (FileSystemEvent.Create p))
    ∧ (∀ p, filter_raw_fs_event (DebouncedEvent.Remove p) = some (FileSystemEvent.Delete p))
    ∧ (∀ a b, filter_raw_fs_event (DebouncedEvent.Rename a b)
        = some (FileSystemEvent.Rename a b))
    ∧ (∀ p, filter_raw_fs_event (DebouncedEvent.Write p) = some (FileSystemEvent.Write p))
    ∧ (∀ e p, filter_raw_fs_event (DebouncedEvent.Error e p)
        = some (FileSystemEvent.Error (Error.from_inner e) p))
    ∧ (∀ p, filter_raw_fs_event (DebouncedEvent.NoticeWrite p) = none)
    ∧ (∀ p, filter_raw_fs_event (DebouncedEvent.NoticeRemove p) = none)
    ∧ (∀ p, filter_raw_fs_event (DebouncedEvent.Chmod p) = none)
    ∧ filter_raw_fs_event DebouncedEvent.Rescan = none :=
  ⟨fun _ => rfl, fun _ => rfl, fun _ _ => rfl, fun _ => rfl, fun _ _ => rfl,
   fun _ => rfl, fun _ => rfl, fun _ => rfl, rfl⟩

/-- C2: the background loop discards the sink's `send` result — two sinks
whose `send`s advance the state identically but return arbitrarily different
`Result`s drive the loop to the same outcome, so a failed `send` is not
propagated, not retried, and never terminates the loop, which continues to
the next receive regardless. -/
theorem watcherLoop_discards_send_failures {σ : Type}
    (send1 send2 : σ → FileSystemEvent → σ × Except Error Unit)
    (h : ∀ s e, (send1 s e).1 = (send2 s e).1)
    (raws : List DebouncedEvent) (s : σ) :
    watcherLoop ⟨send1⟩ raws s = watcherLoop ⟨send2⟩ raws s := by
  induction raws generalizing s with
  | nil => rfl
  | cons raw rest ih =>
    cases hf : filter_raw_fs_event raw with
    | some e =>
      simp only [watcherLoop, hf]
      rw [h s e]
      exact ih _
    | none =>
      simp only [watcherLoop, hf]
      exact ih s

/-- Witness for C2: on a concrete raw-event sequence, the loop driven by an
always-failing sink ends in the same state as the loop driven by an
always-succeeding sink that advances the state the same way. -/
theorem watcherLoop_discards_send_failures_witness :
    watcherLoop (⟨fun s _ => (s + 1, Except.ok ())⟩ : EventSink Nat)
        [DebouncedEvent.Create "/a", DebouncedEvent.Rescan, DebouncedEvent.Write "/b"] 0
      = watcherLoop (⟨fun s _ => (s + 1, Except.error (Error.from_message "sink closed"))⟩ :
          EventSink Nat)
        [DebouncedEvent.Create "/a", DebouncedEvent.Rescan, DebouncedEvent.Write "/b"] 0 :=
  watcherLoop_discards_send_failures _ _ (fun _ _ => rfl) _ 0

/-- C3: on a channel carrying the given raw events before closing, the
background loop's trace is exactly the receive/deliver steps for those
events followed by a single `terminated` step at the failing receive: the
loop never exits while receives succeed (`terminated` is not among the body
steps), it terminates exactly at channel closure, and no delivery follows
termination (`terminated` is the last step). -/
theorem watcherLoop_terminates_exactly_on_channel_close (raws : List DebouncedEvent) :
    watcherLoopTrace raws = loopBodySteps raws ++ [LoopStep.terminated]
    ∧ LoopStep.terminated ∉ loopBodySteps raws := by
  constructor
  · induction raws with
    | nil => rfl
    | cons raw rest ih =>
      cases hf : filter_raw_fs_event raw <;>
        simp [watcherLoopTrace, loopBodySteps, hf, ih]
  · simp only [loopBodySteps, List.mem_flatMap, List.mem_cons, List.mem_map]
    rintro ⟨raw, -, h | ⟨e, -, h⟩⟩ <;> exact LoopStep.noConfusion h

/-- C4: the events the loop hands to the sink, observed by a recording sink
under an arbitrary per-call failure pattern, are exactly
`raws.filterMap filter_raw_fs_event`: one delivery per kept raw event, in
the raw events' relative order, with no reordering, batching or
coalescing. -/
theorem watcherLoop_delivers_in_order
    (res : List FileSystemEvent → FileSystemEvent → Except Error Unit)
    (raws : List DebouncedEvent) (s : List FileSystemEvent) :
    watcherLoop (recordingSink res) raws s = s ++ raws.filterMap filter_raw_fs_event := by
  induction raws generalizing s with
  | nil => simp [watcherLoop]
  | cons raw rest ih =>
    cases hf : filter_raw_fs_event raw with
    | some e =>
      simp only [watcherLoop, hf]
      rw [ih]
      simp [recordingSink, List.filterMap_cons, hf]
    | none =>
      simp only [watcherLoop, hf]
      rw [ih]
      simp [List.filterMap_cons, hf]

/-- Pulling on an exhausted iterator yields `none` forever. -/
theorem LocalFileSystemIter.pulls_nil (k : Nat) :
    LocalFileSystemIter.pulls k ⟨⟨[]⟩⟩ = List.replicate k none := by
  induction k with
  | zero => rfl
  | succ n ih =>
    simp [LocalFileSystemIter.pulls, LocalFileSystemIter.next, ReadDir.next,
      List.replicate_succ, ih]

/-- C5: draining the directory iterator over any finite per-entry result
sequence, every pull yields exactly one item — the entry's resolved path on
success, the entry's I/O failure wrapped as an `Inner` error otherwise — in
entry order; an `Error` item does not end the sequence (the pull after it
yields the next entry's result), and once the entries are exhausted every
further pull yields nothing. -/
theorem dirIter_error_isolation (entries : List (Except IoError DirEntry)) (k : Nat) :
    LocalFileSystemIter.pulls (entries.length + k) ⟨⟨entries⟩⟩ =
      (entries.map fun r => some ((r.map DirEntry.path).mapError Error.from_inner))
      ++ List.replicate k none := by
  induction entries with
  | nil =>
    simpa using LocalFileSystemIter.pulls_nil k
  | cons r rest ih =>
    have hlen : (r :: rest).length + k = ((rest.length + k)) + 1 := by
      simp [List.length_cons]
      omega
    rw [hlen]
    simp only [LocalFileSystemIter.pulls, LocalFileSystemIter.next, ReadDir.next]
    simp [ih]

/-- C6: `has_file` and `has_dir` are total boolean predicates that never
error: both are `false` at a non-existent path and at a path whose metadata
cannot be read (permission denied); at a regular file `has_file` is `true`
and `has_dir` is `false`; at a directory symmetrically. -/
theorem has_file_has_dir_spec (os : OsState) (p : PathBuf) :
    (os p = OsLookup.notFound →
      LocalFileSystem.has_file os p = false ∧ LocalFileSystem.has_dir os p = false)
    ∧ (os p = OsLookup.permissionDenied →
      LocalFileSystem.has_file os p = false ∧ LocalFileSystem.has_dir os p = false)
    ∧ (∀ data, os p = OsLookup.file data →
      LocalFileSystem.has_file os p = true ∧ LocalFileSystem.has_dir os p = false)
    ∧ (∀ entries, os p = OsLookup.dir entries →
      LocalFileSystem.has_file os p = false ∧ LocalFileSystem.has_dir os p = true) := by
  refine ⟨fun h => ?_, fun h => ?_, fun data h => ?_, fun entries h => ?_⟩ <;>
    simp [LocalFileSystem.has_file, LocalFileSystem.has_dir, Path.is_file, Path.is_dir, h]

/-- Witness for C6 on a concrete OS state: a regular file, a directory, a
missing path and a permission-denied path. -/
theorem has_file_has_dir_spec_witness :
    (LocalFileSystem.has_file demoOs "/book/a.md" = true
      ∧ LocalFileSystem.has_dir demoOs "/book/a.md" = false)
    ∧ (LocalFileSystem.has_file demoOs "/book" = false
      ∧ LocalFileSystem.has_dir demoOs "/book" = true)
    ∧ (LocalFileSystem.has_file demoOs "/missing" = false
      ∧ LocalFileSystem.has_dir demoOs "/missing" = false)
    ∧ (LocalFileSystem.has_file demoOs "/secret" = false
      ∧ LocalFileSystem.has_dir demoOs "/secret" = false) :=
  ⟨(has_file_has_dir_spec demoOs "/book/a.md").2.2.1 (FileData.text "hello") rfl,
   (has_file_has_dir_spec demoOs "/book").2.2.2 _ rfl,
   (has_file_has_dir_spec demoOs "/missing").1 rfl,
   (has_file_has_dir_spec demoOs "/secret").2.1 rfl⟩

/-- C7: `read_file_as_string` returns exactly the file's content on a
readable text file; at a missing path, a directory, an unreadable path or a
file that does not decode as text it returns an `Inner` error wrapping the
I/O failure; in every case the result is either a success or an `Inner`
error — never a `Msg` error. -/
theorem read_file_as_string_spec (os : OsState) (p : PathBuf) :
    (∀ c, os p = OsLookup.file (FileData.text c) →
      LocalFileSystem.read_file_as_string os p = Except.ok c)
    ∧ (os p = OsLookup.notFound →
      ∃ b, LocalFileSystem.read_file_as_string os p = Except.error (Error.Inner b))
    ∧ (os p = OsLookup.file FileData.binary →
      ∃ b, LocalFileSystem.read_file_as_string os p = Except.error (Error.Inner b))
    ∧ (∀ entries, os p = OsLookup.dir entries →
      ∃ b, LocalFileSystem.read_file_as_string os p = Except.error (Error.Inner b))
    ∧ (os p = OsLookup.permissionDenied →
      ∃ b, LocalFileSystem.read_file_as_string os p = Except.error (Error.Inner b))
    ∧ ((∃ c, LocalFileSystem.read_file_as_string os p = Except.ok c)
      ∨ (∃ b, LocalFileSystem.read_file_as_string os p = Except.error (Error.Inner b))) := by
  refine ⟨fun c h => ?_, fun h => ?_, fun h => ?_, fun entries h => ?_, fun h => ?_, ?_⟩ <;>
    try simp [LocalFileSystem.read_file_as_string, read_to_string, h, Except.mapError,
      Error.from_inner]
  rcases hosp : os p with data | entries | - | -
  · rcases data with c | -
    · refine Or.inl ?_
      simp [LocalFileSystem.read_file_as_string, read_to_string, hosp, Except.mapError]
    · refine Or.inr ?_
      simp [LocalFileSystem.read_file_as_string, read_to_string, hosp, Except.mapError,
        Error.from_inner]
  · refine Or.inr ?_
    simp [LocalFileSystem.read_file_as_string, read_to_string, hosp, Except.mapError,
      Error.from_inner]
  · refine Or.inr ?_
    simp [LocalFileSystem.read_file_as_string, read_to_string, hosp, Except.mapError,
      Error.from_inner]
  · refine Or.inr ?_
    simp [LocalFileSystem.read_file_as_string, read_to_string, hosp, Except.mapError,
      Error.from_inner]

/-- Witness for C7 on a concrete OS state: exact content on a text file,
`Inner` errors on a missing path, a binary file and a directory. -/
theorem read_file_as_string_spec_witness :
    LocalFileSystem.read_file_as_string demoOs "/book/a.md" = Except.ok "hello"
    ∧ (∃ b, LocalFileSystem.read_file_as_string demoOs "/missing"
        = Except.error (Error.Inner b))
    ∧ (∃ b, LocalFileSystem.read_file_as_string demoOs "/book/bin"
        = Except.error (Error.Inner b))
    ∧ (∃ b, LocalFileSystem.read_file_as_string demoOs "/book"
        = Except.error (Error.Inner b)) :=
  ⟨(read_file_as_string_spec demoOs "/book/a.md").1 "hello" rfl,
   (read_file_as_string_spec demoOs "/missing").2.1 rfl,
   (read_file_as_string_spec demoOs "/book/bin").2.2.1 rfl,
   (read_file_as_string_spec demoOs "/book").2.2.2.1 _ rfl⟩

/-- C8: when initialization of the backend observer fails,
`create_watcher` returns that failure wrapped as an `Inner` error and no
watcher value is produced; the already-spawned background thread, whose
channel's only producer was dropped with the failed initialization before
any event was sent, observes an immediately-failing receive: its loop
returns with the sink untouched and its trace is the single `terminated`
step. -/
theorem create_watcher_init_failure_spec (e : NotifyError) {σ : Type}
    (event_sink : EventSink σ) (s : σ) :
    LocalFileSystem.create_watcher (Except.error e) = Except.error (Error.from_inner e)
    ∧ (LocalFileSystem.create_watcher (Except.error e)).isOk = false
    ∧ watcherLoop event_sink [] s = s
    ∧ watcherLoopTrace [] = [LoopStep.terminated] :=
  ⟨rfl, rfl, rfl, rfl⟩

/-- Counterexample for C9: for a concrete wrapped failure, the standard
error interface's `source` on the `Inner` value returns `None` — the
wrapped underlying failure is not retrievable as the error's source/cause,
contrary to the claim. -/
theorem error_inner_source_counterexample :
    Error.stdErrorInstance.source (Error.Inner ⟨"disk read failed"⟩) = none
    ∧ (Error.stdErrorInstance.source (Error.Inner ⟨"disk read failed"⟩)).isSome = false :=
  ⟨rfl, rfl⟩

/-- C9 (amended): `Error` implements the standard error interface (it has a
per-variant `Display` and an `std::error::Error` impl, so it composes with
standard error propagation and can itself serve as a cause), but the impl
block is empty, so `source` keeps its default body and returns `None` for
every value — including `Inner` — and the wrapped underlying failure is not
retrievable as the error's source/cause. -/
theorem error_stdError_source_always_none :
    (∀ e : Error, Error.stdErrorInstance.source e = none)
    ∧ (∀ b, Error.stdErrorInstance.display (Error.Inner b)
        = "OpenBook inner error: " ++ b.description)
    ∧ (∀ m, Error.stdErrorInstance.display (Error.Msg m) = "OpenBook error: " ++ m) :=
  ⟨fun _ => rfl, fun _ => rfl, fun _ => rfl⟩

/-- C10: the sink implementation for `Sender<FileSystemEvent>` enqueues the
event unchanged and returns success exactly while the receiving end is
connected; once the receiver is dropped it returns the channel send error
wrapped as an `Inner` error and leaves the queue unchanged — receiver
disconnection is its only failure mode. -/
theorem sender_sink_spec (ch : MpscChannel) (event : FileSystemEvent) :
    (ch.connected = true →
      senderEventSink.send ch event = (⟨true, ch.queue ++ [event]⟩, Except.ok ()))
    ∧ (ch.connected = false →
      senderEventSink.send ch event
        = (ch, Except.error (Error.from_inner (⟨event⟩ : SendError)))) := by
  constructor <;> intro h <;>
    simp [senderEventSink, Sender.send, h, Except.mapError, Error.from_inner]

/-- Witness for C10: a connected channel enqueues and succeeds; a
disconnected channel fails with an `Inner`-wrapped send error and keeps its
queue. -/
theorem sender_sink_spec_witness :
    senderEventSink.send ⟨true, []⟩ (FileSystemEvent.Create "/a")
      = (⟨true, [FileSystemEvent.Create "/a"]⟩, Except.ok ())
    ∧ senderEventSink.send ⟨false, []⟩ (FileSystemEvent.Create "/a")
      = (⟨false, []⟩, Except.error
          (Error.from_inner (⟨FileSystemEvent.Create "/a"⟩ : SendError))) :=
  ⟨(sender_sink_spec ⟨true, []⟩ (FileSystemEvent.Create "/a")).1 rfl,
   (sender_sink_spec ⟨false, []⟩ (FileSystemEvent.Create "/a")).2 rfl⟩

end OpenBook
